import Mathlib

/-!
Verification development for the go-llm provider abstraction layer
(`provider_openai.go`, `responses.go`, and the request builder).

The Go code is shallowly embedded: Go strings become `String` (lists of
characters where character-level reasoning is needed), Go maps become
association lists with first-match lookup, Go `int` becomes `Int`,
`nil`-able pointers and `any` fields become `Option`, and fallible
operations return `Except`.  Time-only effects (sleeps, latency
measurement), logging and the HTTP transport are not modelled; the
provider's `Send` is abstracted as an oracle giving the outcome of the
n-th network call.
-/

set_option autoImplicit false

namespace GoLLM

/-! ### Go string helpers

`replaceAll2` embeds `strings.ReplaceAll` specialised to the
two-character patterns used by `normalizeAnthropicModelID`
(left-to-right, non-overlapping replacement). -/

def replaceAll2 (p q r s : Char) : List Char → List Char
  | [] => []
  | [c] => [c]
  | a :: b :: rest =>
    if a = p ∧ b = q then r :: s :: replaceAll2 p q r s rest
    else a :: replaceAll2 p q r s (b :: rest)

/-- Character-level specification of the dotted-version transliteration:
a dot immediately followed by a character satisfying `P` becomes a dash;
everything else is unchanged.  Used to state what the chain of
`strings.ReplaceAll` calls computes. -/
def dashDots (P : Char → Bool) : List Char → List Char
  | [] => []
  | [c] => [c]
  | a :: b :: rest =>
    (if a = '.' ∧ P b then '-' else a) :: dashDots P (b :: rest)

/-- The ten digit characters whose dotted occurrences the source
transliterates (`.1`, `.5`, `.7`, `.0`, `.2`, `.3`, `.4`, `.6`, `.8`, `.9`). -/
def isVersionDigit (c : Char) : Bool :=
  c = '0' ∨ c = '1' ∨ c = '2' ∨ c = '3' ∨ c = '4' ∨
  c = '5' ∨ c = '6' ∨ c = '7' ∨ c = '8' ∨ c = '9'

/-- The chain of `strings.ReplaceAll(raw, ".d", "-d")` calls of
`normalizeAnthropicModelID`, in source order (`.1` first, `.9` last). -/
def dotDashChain (s : List Char) : List Char :=
  replaceAll2 '.' '9' '-' '9' <|
  replaceAll2 '.' '8' '-' '8' <|
  replaceAll2 '.' '6' '-' '6' <|
  replaceAll2 '.' '4' '-' '4' <|
  replaceAll2 '.' '3' '-' '3' <|
  replaceAll2 '.' '2' '-' '2' <|
  replaceAll2 '.' '0' '-' '0' <|
  replaceAll2 '.' '7' '-' '7' <|
  replaceAll2 '.' '5' '-' '5' <|
  replaceAll2 '.' '1' '-' '1' s

/-- The explicit shorthand→snapshot table of `normalizeAnthropicModelID`
(the `switch raw` statement; a `switch` over distinct string literals is
embedded as a first-match association-list lookup). -/
def anthropicSnapshots : List (String × String) :=
  [("claude-sonnet-4.5", "claude-sonnet-4-5-20250929"),
   ("claude-haiku-4.5", "claude-haiku-4-5-20251001"),
   ("claude-opus-4.5", "claude-opus-4-5-20251101"),
   ("claude-opus-4.1", "claude-opus-4-1-20250805"),
   ("claude-opus-4", "claude-opus-4-20250514"),
   ("claude-sonnet-4", "claude-sonnet-4-20250514"),
   ("claude-3.7-sonnet", "claude-3-7-sonnet-20250219"),
   ("claude-3.5-haiku", "claude-3-5-haiku-20241022"),
   ("claude-3-haiku", "claude-3-haiku-20240307"),
   ("claude-3-opus", "claude-3-opus-20240229"),
   ("claude-3-sonnet", "claude-3-sonnet-20240229")]

/-- Go's `strings.HasPrefix`, on the character lists underlying the
strings (the patterns used by the source are ASCII, where byte-level and
character-level prefixes agree). -/
def goHasPref (pre s : String) : Bool :=
  pre.data.isPrefixOf s.data

/-- Go's `strings.TrimPrefix` (also used for the kept branch of
`strings.CutPrefix`). -/
def goTrimPref (pre s : String) : String :=
  if goHasPref pre s then ⟨s.data.drop pre.data.length⟩ else s

/-- Preprocessing of `normalizeAnthropicModelID`: strip an
`"anthropic/"` namespace (`strings.CutPrefix`) and cut everything from
the first `':'` on (`strings.IndexByte` + slice). -/
def anthropicPreprocess (raw0 : String) : String :=
  let raw1 := goTrimPref "anthropic/" raw0
  ⟨raw1.data.takeWhile (fun c => c ≠ ':')⟩

/-- Embedding of `normalizeAnthropicModelID` (provider_openai.go):
strip the OpenRouter-style namespace, drop `":..."` routing suffixes,
map the explicitly-listed dotted shorthands to dated snapshots, and
otherwise transliterate dotted version separators to dashes. -/
def normalizeAnthropicModelID (raw0 : String) : String :=
  let raw := anthropicPreprocess raw0
  match anthropicSnapshots.lookup raw with
  | some snapshot => snapshot
  | none => ⟨dotDashChain raw.data⟩

/-! ### Model identifiers and the per-provider mapping tables -/

/-- The provider enumeration (`ProviderType` constants). -/
inductive ProviderType where
  | openrouter
  | openai
  | anthropic
  | google
  | ollama
  | azure
deriving DecidableEq

/-- The named `Model` constants of the repository.  Their string values
are declared in a file that is not part of `src/`, so the development is
parameterised by a valuation `ModelName → String`; the Go compiler
guarantees only that within one mapping table the key strings are
pairwise distinct (duplicate constant keys in a map literal are a
compile error). -/
inductive ModelName where
  | gpt52 | gpt52Pro | gpt51 | gpt5Base | gpt5Pro | gpt5Mini | gpt5Nano
  | gpt51Codex | gpt51CodexMax | gpt5CodexBase | gpt51CodexMini | codexMiniLatest
  | gpt5SearchAPI | computerUsePreview | gpt52ChatLatest | gpt51ChatLatest
  | gpt5ChatLatest | chatGPT4oLatest | gpt41 | gpt41Mini | gpt41Nano
  | gpt4o | gpt4o20240513 | gpt4oMini | o1 | o1Mini | o1Pro | o1Preview
  | o3 | o3Mini | o3Pro | o3DeepResearch | o4Mini | o4MiniDeepResearch
  | gptRealtime | gptRealtimeMini | gpt4oRealtimePreview | gpt4oMiniRealtimePreview
  | gptAudio | gptAudioMini | gpt4oAudioPreview | gpt4oMiniAudioPreview
  | gpt4oMiniSearchPreview | gpt4oSearchPreview | gpt4oMiniTTS | gpt4oTranscribe
  | gpt4oTranscribeDiarize | gpt4oMiniTranscribe | gptImage15 | chatGPTImageLatest
  | gptImage1 | gptImage1Mini | sora2 | sora2Pro
  | claudeOpus | claudeSonnet | claudeHaiku | claudeOpus41 | claudeOpus4
  | claudeSonnet4 | claudeSonnet37 | claudeHaiku35 | claudeHaiku3
  | claudeOpus3 | claudeSonnet3
  | gemini3Pro | gemini3Flash | gemini25Pro | gemini25Flash | gemini25FlashLite
  | gemini2Flash | gemini2FlashLite
  | grok41Fast | grok3 | grok3Mini | qwen3Next | qwen3 | llama4 | mistralLarge
deriving DecidableEq

set_option maxHeartbeats 1000000 in
/-- The `ProviderOpenRouter` entry of `modelMappings` (provider_openai.go). -/
def openRouterMappings : List (ModelName × String) :=
  [(.gpt52, "openai/gpt-5.2"),
   (.gpt52Pro, "openai/gpt-5.2-pro"),
   (.gpt51, "openai/gpt-5.1"),
   (.gpt5Base, "openai/gpt-5"),
   (.gpt5Pro, "openai/gpt-5-pro"),
   (.gpt5Mini, "openai/gpt-5-mini"),
   (.gpt5Nano, "openai/gpt-5-nano"),
   (.gpt51Codex, "openai/gpt-5.1-codex"),
   (.gpt51CodexMax, "openai/gpt-5.1-codex-max"),
   (.gpt5CodexBase, "openai/gpt-5-codex"),
   (.gpt51CodexMini, "openai/gpt-5.1-codex-mini"),
   (.codexMiniLatest, "openai/codex-mini-latest"),
   (.gpt5SearchAPI, "openai/gpt-5-search-api"),
   (.computerUsePreview, "openai/computer-use-preview"),
   (.gpt52ChatLatest, "openai/gpt-5.2-chat-latest"),
   (.gpt51ChatLatest, "openai/gpt-5.1-chat-latest"),
   (.gpt5ChatLatest, "openai/gpt-5-chat-latest"),
   (.chatGPT4oLatest, "openai/chatgpt-4o-latest"),
   (.gpt41, "openai/gpt-4.1"),
   (.gpt41Mini, "openai/gpt-4.1-mini"),
   (.gpt41Nano, "openai/gpt-4.1-nano"),
   (.gpt4o, "openai/gpt-4o"),
   (.gpt4o20240513, "openai/gpt-4o-2024-05-13"),
   (.gpt4oMini, "openai/gpt-4o-mini"),
   (.o1, "openai/o1"),
   (.o1Mini, "openai/o1-mini"),
   (.o1Pro, "openai/o1-pro"),
   (.o1Preview, "openai/o1-preview"),
   (.o3, "openai/o3"),
   (.o3Mini, "openai/o3-mini"),
   (.o3Pro, "openai/o3-pro"),
   (.o3DeepResearch, "openai/o3-deep-research"),
   (.o4Mini, "openai/o4-mini"),
   (.o4MiniDeepResearch, "openai/o4-mini-deep-research"),
   (.gptRealtime, "openai/gpt-realtime"),
   (.gptRealtimeMini, "openai/gpt-realtime-mini"),
   (.gpt4oRealtimePreview, "openai/gpt-4o-realtime-preview"),
   (.gpt4oMiniRealtimePreview, "openai/gpt-4o-mini-realtime-preview"),
   (.gptAudio, "openai/gpt-audio"),
   (.gptAudioMini, "openai/gpt-audio-mini"),
   (.gpt4oAudioPreview, "openai/gpt-4o-audio-preview"),
   (.gpt4oMiniAudioPreview, "openai/gpt-4o-mini-audio-preview"),
   (.gpt4oMiniSearchPreview, "openai/gpt-4o-mini-search-preview"),
   (.gpt4oSearchPreview, "openai/gpt-4o-search-preview"),
   (.gpt4oMiniTTS, "openai/gpt-4o-mini-tts"),
   (.gpt4oTranscribe, "openai/gpt-4o-transcribe"),
   (.gpt4oTranscribeDiarize, "openai/gpt-4o-transcribe-diarize"),
   (.gpt4oMiniTranscribe, "openai/gpt-4o-mini-transcribe"),
   (.gptImage15, "openai/gpt-image-1.5"),
   (.chatGPTImageLatest, "openai/chatgpt-image-latest"),
   (.gptImage1, "openai/gpt-image-1"),
   (.gptImage1Mini, "openai/gpt-image-1-mini"),
   (.sora2, "openai/sora-2"),
   (.sora2Pro, "openai/sora-2-pro"),
   (.claudeOpus, "anthropic/claude-opus-4.5"),
   (.claudeSonnet, "anthropic/claude-sonnet-4.5"),
   (.claudeHaiku, "anthropic/claude-haiku-4.5"),
   (.claudeOpus41, "anthropic/claude-opus-4.1"),
   (.claudeOpus4, "anthropic/claude-opus-4"),
   (.claudeSonnet4, "anthropic/claude-sonnet-4"),
   (.claudeSonnet37, "anthropic/claude-3.7-sonnet"),
   (.claudeHaiku35, "anthropic/claude-3.5-haiku"),
   (.claudeHaiku3, "anthropic/claude-3-haiku"),
   (.claudeOpus3, "anthropic/claude-3-opus"),
   (.claudeSonnet3, "anthropic/claude-3-sonnet"),
   (.gemini3Pro, "google/gemini-3-pro-preview"),
   (.gemini3Flash, "google/gemini-3-flash-preview"),
   (.gemini25Pro, "google/gemini-2.5-pro"),
   (.gemini25Flash, "google/gemini-2.5-flash"),
   (.gemini25FlashLite, "google/gemini-2.5-flash-lite"),
   (.gemini2Flash, "google/gemini-2.0-flash-001"),
   (.gemini2FlashLite, "google/gemini-2.0-flash-lite-001"),
   (.grok41Fast, "x-ai/grok-4.1-fast"),
   (.grok3, "x-ai/grok-3"),
   (.grok3Mini, "x-ai/grok-3-mini"),
   (.qwen3Next, "qwen/qwen3-next"),
   (.qwen3, "qwen/qwen-3-235b"),
   (.llama4, "meta-llama/llama-4-maverick"),
   (.mistralLarge, "mistralai/mistral-large")]

set_option maxHeartbeats 1000000 in
/-- The `ProviderOpenAI` entry of `modelMappings` (provider_openai.go). -/
def openAIMappings : List (ModelName × String) :=
  [(.gpt52, "gpt-5.2"),
   (.gpt52Pro, "gpt-5.2-pro"),
   (.gpt51, "gpt-5.1"),
   (.gpt5Base, "gpt-5"),
   (.gpt5Pro, "gpt-5-pro"),
   (.gpt5Mini, "gpt-5-mini"),
   (.gpt5Nano, "gpt-5-nano"),
   (.gpt51Codex, "gpt-5.1-codex"),
   (.gpt51CodexMax, "gpt-5.1-codex-max"),
   (.gpt5CodexBase, "gpt-5-codex"),
   (.gpt51CodexMini, "gpt-5.1-codex-mini"),
   (.codexMiniLatest, "codex-mini-latest"),
   (.gpt5SearchAPI, "gpt-5-search-api"),
   (.computerUsePreview, "computer-use-preview"),
   (.gpt52ChatLatest, "gpt-5.2-chat-latest"),
   (.gpt51ChatLatest, "gpt-5.1-chat-latest"),
   (.gpt5ChatLatest, "gpt-5-chat-latest"),
   (.chatGPT4oLatest, "chatgpt-4o-latest"),
   (.gpt41, "gpt-4.1"),
   (.gpt41Mini, "gpt-4.1-mini"),
   (.gpt41Nano, "gpt-4.1-nano"),
   (.gpt4o, "gpt-4o"),
   (.gpt4o20240513, "gpt-4o-2024-05-13"),
   (.gpt4oMini, "gpt-4o-mini"),
   (.o1, "o1"),
   (.o1Mini, "o1-mini"),
   (.o1Pro, "o1-pro"),
   (.o1Preview, "o1-preview"),
   (.o3, "o3"),
   (.o3Mini, "o3-mini"),
   (.o3Pro, "o3-pro"),
   (.o3DeepResearch, "o3-deep-research"),
   (.o4Mini, "o4-mini"),
   (.o4MiniDeepResearch, "o4-mini-deep-research"),
   (.gptRealtime, "gpt-realtime"),
   (.gptRealtimeMini, "gpt-realtime-mini"),
   (.gpt4oRealtimePreview, "gpt-4o-realtime-preview"),
   (.gpt4oMiniRealtimePreview, "gpt-4o-mini-realtime-preview"),
   (.gptAudio, "gpt-audio"),
   (.gptAudioMini, "gpt-audio-mini"),
   (.gpt4oAudioPreview, "gpt-4o-audio-preview"),
   (.gpt4oMiniAudioPreview, "gpt-4o-mini-audio-preview"),
   (.gpt4oMiniSearchPreview, "gpt-4o-mini-search-preview"),
   (.gpt4oSearchPreview, "gpt-4o-search-preview"),
   (.gpt4oMiniTTS, "gpt-4o-mini-tts"),
   (.gpt4oTranscribe, "gpt-4o-transcribe"),
   (.gpt4oTranscribeDiarize, "gpt-4o-transcribe-diarize"),
   (.gpt4oMiniTranscribe, "gpt-4o-mini-transcribe"),
   (.gptImage15, "gpt-image-1.5"),
   (.chatGPTImageLatest, "chatgpt-image-latest"),
   (.gptImage1, "gpt-image-1"),
   (.gptImage1Mini, "gpt-image-1-mini")]

/-- The `ProviderAnthropic` entry of `modelMappings` (provider_openai.go). -/
def anthropicMappings : List (ModelName × String) :=
  [(.claudeSonnet, "claude-sonnet-4-5-20250929"),
   (.claudeHaiku, "claude-haiku-4-5-20251001"),
   (.claudeOpus, "claude-opus-4-5-20251101"),
   (.claudeOpus41, "claude-opus-4-1-20250805"),
   (.claudeSonnet4, "claude-sonnet-4-20250514"),
   (.claudeOpus4, "claude-opus-4-20250514"),
   (.claudeSonnet37, "claude-3-7-sonnet-20250219"),
   (.claudeHaiku35, "claude-3-5-haiku-20241022"),
   (.claudeHaiku3, "claude-3-haiku-20240307"),
   (.claudeOpus3, "claude-3-opus-20240229"),
   (.claudeSonnet3, "claude-3-sonnet-20240229")]

/-- The `ProviderGoogle` entry of `modelMappings` (provider_openai.go). -/
def googleMappings : List (ModelName × String) :=
  [(.gemini3Pro, "gemini-3-pro-preview"),
   (.gemini3Flash, "gemini-3-flash-preview"),
   (.gemini25Pro, "gemini-2.5-pro"),
   (.gemini25Flash, "gemini-2.5-flash"),
   (.gemini25FlashLite, "gemini-2.5-flash-lite"),
   (.gemini2Flash, "gemini-2.0-flash"),
   (.gemini2FlashLite, "gemini-2.0-flash-lite")]

/-- The `modelMappings` table in its post-`init()` state: `init()`
replaces the empty `ProviderAzure` entry with the `ProviderOpenAI`
entry, and `ProviderOllama` has no entry at all (`none`). -/
def modelMappings : ProviderType → Option (List (ModelName × String))
  | .openrouter => some openRouterMappings
  | .openai => some openAIMappings
  | .anthropic => some anthropicMappings
  | .google => some googleMappings
  | .azure => some openAIMappings
  | .ollama => none

/-- Go map lookup `mapping[model]` on the embedded association list
under a valuation of the `Model` constants (first match; with the keys
pairwise distinct this is exactly map lookup). -/
def lookupMapped (v : ModelName → String) (tbl : List (ModelName × String))
    (model : String) : Option String :=
  match tbl with
  | [] => none
  | (k, val) :: rest => if v k = model then some val else lookupMapped v rest model

/-- Embedding of `looksLikeOpenAIModelID` (provider_openai.go). -/
def looksLikeOpenAIModelID (id : String) : Bool :=
  if goHasPref "gpt-" id then true
  else if goHasPref "chatgpt-" id then true
  else if goHasPref "sora-" id then true
  else if goHasPref "whisper-" id then true
  else if goHasPref "tts-" id then true
  else if goHasPref "text-embedding-" id then true
  else
    match id.data with
    | c0 :: c1 :: _ => c0 = 'o' ∧ '0' ≤ c1 ∧ c1 ≤ '9'
    | _ => false

/-- Embedding of `resolveModel` (provider_openai.go), parameterised by
the valuation `v` of the `Model` constants: exact table lookup first,
then the per-provider normalization heuristics, then pass-through. -/
def resolveModel (v : ModelName → String) (pt : ProviderType) (model : String) : String :=
  match (match modelMappings pt with
         | some tbl => lookupMapped v tbl model
         | none => none) with
  | some resolved => resolved
  | none =>
    match pt with
    | .openai | .azure => goTrimPref "openai/" model
    | .openrouter =>
      if !(model.data.contains '/') && looksLikeOpenAIModelID model
      then "openai/" ++ model else model
    | .anthropic => normalizeAnthropicModelID model
    | .google => goTrimPref "google/" model
    | .ollama => model

/-- Decides whether the character list contains a dot immediately
followed by a character satisfying `P` (a dotted version separator when
`P` is `isVersionDigit`). -/
def hasDotWith (P : Char → Bool) : List Char → Bool
  | [] => false
  | [_] => false
  | a :: b :: rest => (a = '.' ∧ P b) || hasDotWith P (b :: rest)

/-- The key strings of a mapping table are pairwise distinct under the
valuation (what the Go compiler guarantees for each map literal: typed
constant keys with equal values would be duplicate map keys). -/
def keysDistinct (v : ModelName → String) (tbl : List (ModelName × String)) : Prop :=
  (tbl.map (fun e => v e.1)).Nodup

/-- A sample valuation of the `Model` constants, used by witnesses: it
maps every constant to its OpenRouter identifier (these are pairwise
distinct). -/
def sampleConsts (n : ModelName) : String :=
  (openRouterMappings.lookup n).getD ""

/-! ### Built-in tools and the outbound wire translation -/

/-- `UserLocation` (responses.go). -/
structure UserLocation where
  typ : String := ""
  country : String := ""
  city : String := ""
  region : String := ""
  timezone : String := ""
deriving DecidableEq

/-- `SearchFilter` (responses.go). -/
structure SearchFilter where
  allowedDomains : List String := []
deriving DecidableEq

/-- `ContainerConfig` (responses.go). -/
structure ContainerConfig where
  typ : String := ""
  memoryLimit : String := ""
  fileIDs : List String := []
deriving DecidableEq

/-- Values stored in the Go `any`-typed fields of `BuiltinTool`
(`Container`, `FileFilter`, `RequireApproval`); the translator copies
them verbatim, so their exact shape is irrelevant to the wire layout. -/
inductive GoDyn where
  | str (s : String)
  | container (c : ContainerConfig)
  | other (tag : String)
deriving DecidableEq

/-- `BuiltinTool` (responses.go): the flat tagged-union configuration.
Go zero values (`nil` pointer/`any`/slice, `""`, `0`) are the defaults. -/
structure BuiltinTool where
  typ : String := ""
  userLocation : Option UserLocation := none
  searchFilter : Option SearchFilter := none
  vectorStoreIDs : List String := []
  maxNumResults : Int := 0
  fileFilter : Option GoDyn := none
  container : Option GoDyn := none
  serverLabel : String := ""
  serverURL : String := ""
  serverDescription : String := ""
  connectorID : String := ""
  authorization : String := ""
  requireApproval : Option GoDyn := none
  allowedTools : List String := []
  imageSize : String := ""
  imageQuality : String := ""
  imageFormat : String := ""
  imageCompression : Int := 0
  imageBackground : String := ""
  partialImages : Int := 0
  displayWidth : Int := 0
  displayHeight : Int := 0
  environment : String := ""
deriving DecidableEq

/-- A value in the outbound wire object. -/
inductive WireVal where
  | s (v : String)
  | i (v : Int)
  | ss (v : List String)
  | loc (v : UserLocation)
  | sf (v : SearchFilter)
  | dyn (v : GoDyn)
deriving DecidableEq

/-- Embedding of `buildBuiltinTool` (provider_openai.go): the returned
`map[string]any` is an association list whose keys are inserted in
program order (`"type"` first; all keys written by one run are
distinct, so insertion order is the only bookkeeping needed).  The Go
`switch` over distinct string literals is embedded as an if-chain; it
has no `default` case, so an unrecognized tag falls through and only
the discriminator is emitted. -/
def buildBuiltinTool (bt : BuiltinTool) : List (String × WireVal) :=
  [("type", WireVal.s bt.typ)] ++
  (if bt.typ = "web_search" then
     (match bt.userLocation with
      | some u => [("user_location", WireVal.loc u)]
      | none => []) ++
     (match bt.searchFilter with
      | some f => [("filters", WireVal.sf f)]
      | none => [])
   else if bt.typ = "file_search" then
     (if bt.vectorStoreIDs.length > 0
      then [("vector_store_ids", WireVal.ss bt.vectorStoreIDs)] else []) ++
     (if bt.maxNumResults > 0
      then [("max_num_results", WireVal.i bt.maxNumResults)] else []) ++
     (match bt.fileFilter with
      | some f => [("filters", WireVal.dyn f)]
      | none => [])
   else if bt.typ = "code_interpreter" then
     (match bt.container with
      | some c => [("container", WireVal.dyn c)]
      | none => [])
   else if bt.typ = "mcp" then
     (if bt.serverLabel ≠ "" then [("server_label", WireVal.s bt.serverLabel)] else []) ++
     (if bt.serverURL ≠ "" then [("server_url", WireVal.s bt.serverURL)] else []) ++
     (if bt.serverDescription ≠ ""
      then [("server_description", WireVal.s bt.serverDescription)] else []) ++
     (if bt.connectorID ≠ "" then [("connector_id", WireVal.s bt.connectorID)] else []) ++
     (if bt.authorization ≠ ""
      then [("authorization", WireVal.s bt.authorization)] else []) ++
     (match bt.requireApproval with
      | some r => [("require_approval", WireVal.dyn r)]
      | none => []) ++
     (if bt.allowedTools.length > 0
      then [("allowed_tools", WireVal.ss bt.allowedTools)] else [])
   else if bt.typ = "image_generation" then
     (if bt.imageSize ≠ "" then [("size", WireVal.s bt.imageSize)] else []) ++
     (if bt.imageQuality ≠ "" then [("quality", WireVal.s bt.imageQuality)] else []) ++
     (if bt.imageFormat ≠ "" then [("output_format", WireVal.s bt.imageFormat)] else []) ++
     (if bt.imageCompression > 0
      then [("compression", WireVal.i bt.imageCompression)] else []) ++
     (if bt.imageBackground ≠ ""
      then [("background", WireVal.s bt.imageBackground)] else []) ++
     (if bt.partialImages > 0
      then [("partial_images", WireVal.i bt.partialImages)] else [])
   else if bt.typ = "computer_use_preview" then
     (if bt.displayWidth > 0 then [("display_width", WireVal.i bt.displayWidth)] else []) ++
     (if bt.displayHeight > 0
      then [("display_height", WireVal.i bt.displayHeight)] else []) ++
     (if bt.environment ≠ "" then [("environment", WireVal.s bt.environment)] else [])
   else if bt.typ = "shell" then []
   else if bt.typ = "apply_patch" then []
   else [])

/-- The eight recognized `BuiltinTool` tags. -/
def builtinToolTags : List String :=
  ["web_search", "file_search", "code_interpreter", "mcp",
   "image_generation", "computer_use_preview", "shell", "apply_patch"]

/-- The wire keys defined for each recognized tag (besides the
discriminator `"type"`). -/
def tagFieldKeys : String → List String
  | "web_search" => ["user_location", "filters"]
  | "file_search" => ["vector_store_ids", "max_num_results", "filters"]
  | "code_interpreter" => ["container"]
  | "mcp" => ["server_label", "server_url", "server_description", "connector_id",
              "authorization", "require_approval", "allowed_tools"]
  | "image_generation" => ["size", "quality", "output_format", "compression",
                           "background", "partial_images"]
  | "computer_use_preview" => ["display_width", "display_height", "environment"]
  | _ => []

/-- The non-zero guard under which `buildBuiltinTool` emits a given wire
key for a given tool value (mirrors the `if`/`nil` checks of the
source, per tag). -/
def wireGuard (bt : BuiltinTool) (k : String) : Bool :=
  if bt.typ = "web_search" then
    if k = "user_location" then bt.userLocation.isSome
    else if k = "filters" then bt.searchFilter.isSome
    else false
  else if bt.typ = "file_search" then
    if k = "vector_store_ids" then bt.vectorStoreIDs.length > 0
    else if k = "max_num_results" then bt.maxNumResults > 0
    else if k = "filters" then bt.fileFilter.isSome
    else false
  else if bt.typ = "code_interpreter" then
    if k = "container" then bt.container.isSome
    else false
  else if bt.typ = "mcp" then
    if k = "server_label" then bt.serverLabel ≠ ""
    else if k = "server_url" then bt.serverURL ≠ ""
    else if k = "server_description" then bt.serverDescription ≠ ""
    else if k = "connector_id" then bt.connectorID ≠ ""
    else if k = "authorization" then bt.authorization ≠ ""
    else if k = "require_approval" then bt.requireApproval.isSome
    else if k = "allowed_tools" then bt.allowedTools.length > 0
    else false
  else if bt.typ = "image_generation" then
    if k = "size" then bt.imageSize ≠ ""
    else if k = "quality" then bt.imageQuality ≠ ""
    else if k = "output_format" then bt.imageFormat ≠ ""
    else if k = "compression" then bt.imageCompression > 0
    else if k = "background" then bt.imageBackground ≠ ""
    else if k = "partial_images" then bt.partialImages > 0
    else false
  else if bt.typ = "computer_use_preview" then
    if k = "display_width" then bt.displayWidth > 0
    else if k = "display_height" then bt.displayHeight > 0
    else if k = "environment" then bt.environment ≠ ""
    else false
  else false

/-- A sample MCP tool configuration, used by the C5 witness. -/
def sampleMCPTool : BuiltinTool :=
  { typ := "mcp", serverLabel := "dice", serverURL := "https://example.com/mcp" }

/-! ### Abstract responses, provider errors, and the orchestrator

`SendWithMeta` (the request builder) is embedded with its effect-only
statements dropped: capability warnings, debug printing, `time.Sleep`
backoffs, latency measurement, `waitForRateLimit` and `trackRequest`
only touch time/logging/shared counters that no claim observes.  The
provider's `Send` is an oracle from the global call index to an
outcome, and the embedding additionally records the trace of calls (the
model passed to each `Send`) so that statements can speak about how
many network attempts were made and in which order. -/

/-- `ProviderError` (provider_openai.go); the wrapped `Err error` field
is not modelled (no claim inspects it). -/
structure ProviderError where
  provider : String := ""
  code : String := ""
  message : String := ""
deriving DecidableEq

/-- `Citation` (responses.go). -/
structure Citation where
  typ : String := ""
  url : String := ""
  title : String := ""
  fileID : String := ""
  filename : String := ""
  startIndex : Int := 0
  endIndex : Int := 0
deriving DecidableEq

/-- `ComputerAction` (responses.go). -/
structure ComputerAction where
  typ : String := ""
  x : Int := 0
  y : Int := 0
  button : String := ""
  scrollX : Int := 0
  scrollY : Int := 0
  keys : List String := []
  text : String := ""
deriving DecidableEq

/-- `ShellAction` (responses.go). -/
structure ShellAction where
  commands : List String := []
  timeoutMs : Int := 0
  maxOutputLength : Int := 0
deriving DecidableEq

/-- `SafetyCheck` (responses.go). -/
structure SafetyCheck where
  id : String := ""
  code : String := ""
  message : String := ""
deriving DecidableEq

/-- `PatchOperation` (responses.go). -/
structure PatchOperation where
  typ : String := ""
  path : String := ""
  diff : String := ""
deriving DecidableEq

/-- `ResponsesToolCall` (responses.go). -/
structure ResponsesToolCall where
  id : String := ""
  typ : String := ""
  status : String := ""
  callID : String := ""
  serverLabel : String := ""
  name : String := ""
  arguments : String := ""
  output : String := ""
  error : String := ""
  revisedPrompt : String := ""
  imageResult : String := ""
  action : Option ComputerAction := none
  shellAction : Option ShellAction := none
  patchOperation : Option PatchOperation := none
  pendingSafetyChecks : List SafetyCheck := []
deriving DecidableEq

/-- `ResponsesOutput` (responses.go); the `Sources` and `OutputItems`
fields are never populated by `parseResponsesResponse` and are
omitted. -/
structure ResponsesOutput where
  text : String := ""
  citations : List Citation := []
  toolCalls : List ResponsesToolCall := []
deriving DecidableEq

/-- `ProviderResponse` (the provider interface file); the `ToolCalls`
field has type `[]ToolCall` whose declaration is outside `src/` and no
claim inspects it, so it is omitted. -/
structure ProviderResponse where
  content : String := ""
  promptTokens : Int := 0
  completionTokens : Int := 0
  totalTokens : Int := 0
  finishReason : String := ""
  responsesOutput : Option ResponsesOutput := none
deriving DecidableEq

/-- Go `type Model string`. -/
abbrev Model := String

/-- The observable state threaded through an execution of
`SendWithMeta`: the trace of provider `Send` calls (which model each
call was made for) and the `totalRetries` counter. -/
structure OrchState where
  calls : List Model := []
  totalRetries : Nat := 0
deriving DecidableEq

/-- The provider's behaviour, abstracted over the transport: the
outcome of the n-th `Send` call of this execution. -/
abbrev SendOracle := Nat → Except ProviderError ProviderResponse

/-- One `client.provider.Send(ctx, req)` call (preceded in the source
by `waitForRateLimit()`, an effect-only gate). -/
def doSend (oracle : SendOracle) (m : Model) (s : OrchState) :
    Except ProviderError ProviderResponse × OrchState :=
  (oracle s.calls.length, { s with calls := s.calls ++ [m] })

/-- The legacy fixed retry loop of `SendWithMeta`
(`for attempt := 0; attempt <= maxRetries; attempt++`): `left` is the
number of attempts still allowed (`maxRetries+1` at entry), `first`
marks `attempt == 0`; before every attempt after the first,
`totalRetries` is incremented (the `time.Sleep` backoff is effect-only
and dropped).  The loop stops at the first success, otherwise returns
the last error.  `left = 0` is unreachable (the loop always runs at
least once). -/
def legacyRetryLoop (oracle : SendOracle) (m : Model) :
    Nat → Bool → OrchState → Except ProviderError ProviderResponse × OrchState
  | 0, _, s => (.error { message := "unreachable" }, s)
  | Nat.succ left, first, s =>
    let s1 := if first then s else { s with totalRetries := s.totalRetries + 1 }
    let r := doSend oracle m s1
    match r.1, left with
    | .ok resp, _ => (.ok resp, r.2)
    | .error e, 0 => (.error e, r.2)
    | .error _, Nat.succ l => legacyRetryLoop oracle m (Nat.succ l) false r.2

/-- Modelled from the spec: `WithRetry` and `RetryConfig` are declared
outside `src/`; per the spec's smart policy it performs up to
`maxAttempts` attempts of the operation, returning the first success or
the last error (exponential backoff and jitter are time-only).  The
closure passed to it in `SendWithMeta` increments `totalRetries` before
every attempt after the first and passes the rate-limit gate before
each `Send`, so the observable call/retry accounting coincides with the
legacy loop's. -/
def smartRetryLoop (oracle : SendOracle) (m : Model) :
    Nat → Bool → OrchState → Except ProviderError ProviderResponse × OrchState
  | 0, _, s => (.error { message := "unreachable" }, s)
  | Nat.succ left, first, s =>
    let s1 := if first then s else { s with totalRetries := s.totalRetries + 1 }
    let r := doSend oracle m s1
    match r.1, left with
    | .ok resp, _ => (.ok resp, r.2)
    | .error e, 0 => (.error e, r.2)
    | .error _, Nat.succ l => smartRetryLoop oracle m (Nat.succ l) false r.2

/-- The builder state that `SendWithMeta` reads: primary model,
fallback chain, the legacy `maxRetries`, the smart retry policy's
attempt budget (`b.retryConfig`, `none` when unset), and the
validation collaborator (`none` models `len(b.validators) == 0`; the
function abstracts `b.runValidators`, which is declared outside
`src/`). -/
structure SendConfig where
  model : Model
  fallbacks : List Model := []
  maxRetries : Nat := 0
  retryMaxAttempts : Option Nat := none
  validators : Option (String → Except ProviderError String) := none

/-- `ResponseMeta` (the request builder); `Latency` is real time and is
not modelled. -/
structure ResponseMeta where
  content : String := ""
  error : Option ProviderError := none
  model : Model := ""
  tokens : Int := 0
  promptTokens : Int := 0
  completionTokens : Int := 0
  retries : Nat := 0
  responsesOutput : Option ResponsesOutput := none
deriving DecidableEq

/-- The per-model attempt discipline of `SendWithMeta`: smart retry if
`b.retryConfig != nil`, else the legacy loop if `b.maxRetries > 0`,
else a single attempt. -/
def attemptModel (oracle : SendOracle) (cfg : SendConfig) (m : Model) (s : OrchState) :
    Except ProviderError ProviderResponse × OrchState :=
  match cfg.retryMaxAttempts with
  | some maxAttempts => smartRetryLoop oracle m maxAttempts true s
  | none =>
    if cfg.maxRetries > 0 then legacyRetryLoop oracle m (cfg.maxRetries + 1) true s
    else doSend oracle m s

/-- The `for _, model := range models` loop of `SendWithMeta`: on
success, run the validators (a validation error is returned immediately
and terminally, tagged with the current model); on failure, remember
the last error and move to the next model; when the chain is exhausted,
return the last error tagged with the original primary model
(`b.model`). -/
def sendChain (oracle : SendOracle) (cfg : SendConfig) :
    List Model → OrchState → Option ProviderError → ResponseMeta × OrchState
  | [], s, lastErr =>
    ({ error := lastErr, model := cfg.model, retries := s.totalRetries }, s)
  | m :: rest, s, _ =>
    let r := attemptModel oracle cfg m s
    match r.1 with
    | .error e => sendChain oracle cfg rest r.2 (some e)
    | .ok resp =>
      match cfg.validators with
      | some runVals =>
        match runVals resp.content with
        | .error ve =>
          ({ error := some ve, model := m, retries := r.2.totalRetries }, r.2)
        | .ok validated =>
          ({ content := validated, model := m, retries := r.2.totalRetries,
             tokens := resp.totalTokens, promptTokens := resp.promptTokens,
             completionTokens := resp.completionTokens,
             responsesOutput := resp.responsesOutput }, r.2)
      | none =>
        ({ content := resp.content, model := m, retries := r.2.totalRetries,
           tokens := resp.totalTokens, promptTokens := resp.promptTokens,
           completionTokens := resp.completionTokens,
           responsesOutput := resp.responsesOutput }, r.2)

/-- Embedding of `SendWithMeta`: try `[b.model] ++ b.fallbacks` in
order, starting from the empty call trace. -/
def sendWithMeta (oracle : SendOracle) (cfg : SendConfig) : ResponseMeta × OrchState :=
  sendChain oracle cfg (cfg.model :: cfg.fallbacks) {} none

/-- An always-failing provider, used by the C3 witness. -/
def alwaysFailOracle : SendOracle := fun _ => Except.error { message := "boom" }

/-- An always-successful provider returning fixed content, used by the
C6 witness. -/
def okOracle : SendOracle := fun _ => Except.ok { content := "bad word" }

/-- A validator rejecting every content, used by the C6 witness. -/
def rejectAll : String → Except ProviderError String :=
  fun _ => Except.error { message := "validation failed" }

/-- A builder configuration with validators, used by the C6 witness. -/
def c6DemoCfg : SendConfig :=
  { model := "gpt-5.2", fallbacks := ["gpt-4o", "o3"], validators := some rejectAll }

/-! ### JSON values and the inbound Responses decoder

`parseResponsesResponse` first runs `json.Unmarshal` into a typed
envelope struct and treats any unmarshal error as fatal.  The body is
modelled as an already-tokenized JSON value (numbers restricted to the
integers that the envelope uses; byte-level syntax errors are outside
the model), and the unmarshal step is embedded with Go semantics: a
JSON `null` into a non-pointer field is a no-op, `null` into a pointer
field sets it to `nil`, a type-mismatched value is an error (Go records
the first such error and `parseResponsesResponse` fails on any non-nil
error, so short-circuiting is observationally equal), unknown keys are
ignored, and later duplicate keys overwrite earlier ones. -/

/-- A JSON value. -/
inductive Json where
  | null : Json
  | bool : Bool → Json
  | num : Int → Json
  | str : String → Json
  | arr : List Json → Json
  | obj : List (String × Json) → Json

/-- Unmarshal a JSON value into a Go `string` field holding `cur`. -/
def decStr (cur : String) : Json → Except Unit String
  | .null => .ok cur
  | .str v => .ok v
  | _ => .error ()

/-- Unmarshal a JSON value into a Go `int` field holding `cur`. -/
def decInt (cur : Int) : Json → Except Unit Int
  | .null => .ok cur
  | .num v => .ok v
  | _ => .error ()

/-- Unmarshal a JSON value into a Go `[]string` field holding `cur`. -/
def decStrList (cur : List String) : Json → Except Unit (List String)
  | .null => .ok cur
  | .arr es => es.mapM (decStr "")
  | _ => .error ()

/-- Fold a struct's field-decoding step over the members of a JSON
object, in order (later duplicates overwrite). -/
def decFields {α : Type} (step : α → String → Json → Except Unit α) (cur : α)
    (fields : List (String × Json)) : Except Unit α :=
  fields.foldlM (fun acc kv => step acc kv.1 kv.2) cur

/-- Unmarshal a JSON value into a Go slice field holding `cur`, given
the element decoder (fresh elements start from the zero value). -/
def decList {α : Type} (dec : α → Json → Except Unit α) (zero : α) (cur : List α) :
    Json → Except Unit (List α)
  | .null => .ok cur
  | .arr es => es.mapM (dec zero)
  | _ => .error ()

/-- The annotation entries of a message content part (the anonymous
`Annotations` struct of the envelope). -/
structure RawAnnEntry where
  typ : String := ""
  url : String := ""
  title : String := ""
  fileID : String := ""
  filename : String := ""
  startIndex : Int := 0
  endIndex : Int := 0
deriving DecidableEq

def decAnnStep (a : RawAnnEntry) (k : String) (v : Json) : Except Unit RawAnnEntry :=
  if k = "type" then (decStr a.typ v).map fun x => { a with typ := x }
  else if k = "url" then (decStr a.url v).map fun x => { a with url := x }
  else if k = "title" then (decStr a.title v).map fun x => { a with title := x }
  else if k = "file_id" then (decStr a.fileID v).map fun x => { a with fileID := x }
  else if k = "filename" then (decStr a.filename v).map fun x => { a with filename := x }
  else if k = "start_index" then (decInt a.startIndex v).map fun x => { a with startIndex := x }
  else if k = "end_index" then (decInt a.endIndex v).map fun x => { a with endIndex := x }
  else .ok a

def decAnn (cur : RawAnnEntry) : Json → Except Unit RawAnnEntry
  | .null => .ok cur
  | .obj fs => decFields decAnnStep cur fs
  | _ => .error ()

/-- A message content part of the envelope (`Content` member). -/
structure RawContentPart where
  typ : String := ""
  text : String := ""
  annots : List RawAnnEntry := []
deriving DecidableEq

def decContentPartStep (a : RawContentPart) (k : String) (v : Json) :
    Except Unit RawContentPart :=
  if k = "type" then (decStr a.typ v).map fun x => { a with typ := x }
  else if k = "text" then (decStr a.text v).map fun x => { a with text := x }
  else if k = "annotations" then
    (decList decAnn {} a.annots v).map fun x => { a with annots := x }
  else .ok a

def decContentPart (cur : RawContentPart) : Json → Except Unit RawContentPart
  | .null => .ok cur
  | .obj fs => decFields decContentPartStep cur fs
  | _ => .error ()

/-- A pending safety check of the envelope. -/
structure RawSafety where
  id : String := ""
  code : String := ""
  message : String := ""
deriving DecidableEq

def decSafetyStep (a : RawSafety) (k : String) (v : Json) : Except Unit RawSafety :=
  if k = "id" then (decStr a.id v).map fun x => { a with id := x }
  else if k = "code" then (decStr a.code v).map fun x => { a with code := x }
  else if k = "message" then (decStr a.message v).map fun x => { a with message := x }
  else .ok a

def decSafety (cur : RawSafety) : Json → Except Unit RawSafety
  | .null => .ok cur
  | .obj fs => decFields decSafetyStep cur fs
  | _ => .error ()

/-- The nested `Operation` object of an apply-patch item. -/
structure RawOperation where
  typ : String := ""
  path : String := ""
  diff : String := ""
deriving DecidableEq

def decOperationStep (a : RawOperation) (k : String) (v : Json) : Except Unit RawOperation :=
  if k = "type" then (decStr a.typ v).map fun x => { a with typ := x }
  else if k = "path" then (decStr a.path v).map fun x => { a with path := x }
  else if k = "diff" then (decStr a.diff v).map fun x => { a with diff := x }
  else .ok a

/-- Unmarshal into the `*Operation` pointer field (`null` sets the
pointer to `nil`; an object allocates/merges). -/
def decOperationField (cur : Option RawOperation) :
    Json → Except Unit (Option RawOperation)
  | .null => .ok none
  | .obj fs => (decFields decOperationStep (cur.getD {}) fs).map some
  | _ => .error ()

/-- One member of the envelope's `Output` array. -/
structure RawOutputItem where
  id : String := ""
  typ : String := ""
  status : String := ""
  callID : String := ""
  role : String := ""
  content : List RawContentPart := []
  serverLabel : String := ""
  name : String := ""
  arguments : String := ""
  outputText : String := ""
  error : String := ""
  revisedPrompt : String := ""
  result : String := ""
  action : Option Json := none
  pendingSafetyChecks : List RawSafety := []
  operation : Option RawOperation := none

def decOutputItemStep (a : RawOutputItem) (k : String) (v : Json) :
    Except Unit RawOutputItem :=
  if k = "id" then (decStr a.id v).map fun x => { a with id := x }
  else if k = "type" then (decStr a.typ v).map fun x => { a with typ := x }
  else if k = "status" then (decStr a.status v).map fun x => { a with status := x }
  else if k = "call_id" then (decStr a.callID v).map fun x => { a with callID := x }
  else if k = "role" then (decStr a.role v).map fun x => { a with role := x }
  else if k = "content" then
    (decList decContentPart {} a.content v).map fun x => { a with content := x }
  else if k = "server_label" then
    (decStr a.serverLabel v).map fun x => { a with serverLabel := x }
  else if k = "name" then (decStr a.name v).map fun x => { a with name := x }
  else if k = "arguments" then (decStr a.arguments v).map fun x => { a with arguments := x }
  else if k = "output" then (decStr a.outputText v).map fun x => { a with outputText := x }
  else if k = "error" then (decStr a.error v).map fun x => { a with error := x }
  else if k = "revised_prompt" then
    (decStr a.revisedPrompt v).map fun x => { a with revisedPrompt := x }
  else if k = "result" then (decStr a.result v).map fun x => { a with result := x }
  else if k = "action" then .ok { a with action := some v }
  else if k = "pending_safety_checks" then
    (decList decSafety {} a.pendingSafetyChecks v).map
      fun x => { a with pendingSafetyChecks := x }
  else if k = "operation" then
    (decOperationField a.operation v).map fun x => { a with operation := x }
  else .ok a

def decOutputItem (cur : RawOutputItem) : Json → Except Unit RawOutputItem
  | .null => .ok cur
  | .obj fs => decFields decOutputItemStep cur fs
  | _ => .error ()

/-- The envelope's `Usage` object. -/
structure RawUsage where
  inputTokens : Int := 0
  outputTokens : Int := 0
  totalTokens : Int := 0
deriving DecidableEq

def decUsageStep (a : RawUsage) (k : String) (v : Json) : Except Unit RawUsage :=
  if k = "input_tokens" then (decInt a.inputTokens v).map fun x => { a with inputTokens := x }
  else if k = "output_tokens" then
    (decInt a.outputTokens v).map fun x => { a with outputTokens := x }
  else if k = "total_tokens" then
    (decInt a.totalTokens v).map fun x => { a with totalTokens := x }
  else .ok a

/-- The envelope's top-level `Error` object. -/
structure RawErrorObj where
  message : String := ""
  typ : String := ""
  code : String := ""
deriving DecidableEq

def decErrorStep (a : RawErrorObj) (k : String) (v : Json) : Except Unit RawErrorObj :=
  if k = "message" then (decStr a.message v).map fun x => { a with message := x }
  else if k = "type" then (decStr a.typ v).map fun x => { a with typ := x }
  else if k = "code" then (decStr a.code v).map fun x => { a with code := x }
  else .ok a

/-- Unmarshal into the `*Error` pointer field. -/
def decErrorField (cur : Option RawErrorObj) : Json → Except Unit (Option RawErrorObj)
  | .null => .ok none
  | .obj fs => (decFields decErrorStep (cur.getD {}) fs).map some
  | _ => .error ()

/-- The whole unmarshalled Responses envelope. -/
structure RawResponsesBody where
  id : String := ""
  status : String := ""
  output : List RawOutputItem := []
  outputText : String := ""
  usage : RawUsage := {}
  error : Option RawErrorObj := none

/-- Unmarshal into the non-pointer `Usage` struct field. -/
def decUsageField (cur : RawUsage) : Json → Except Unit RawUsage
  | .null => .ok cur
  | .obj fs => decFields decUsageStep cur fs
  | _ => .error ()

def decBodyStep (a : RawResponsesBody) (k : String) (v : Json) :
    Except Unit RawResponsesBody :=
  if k = "id" then (decStr a.id v).map fun x => { a with id := x }
  else if k = "status" then (decStr a.status v).map fun x => { a with status := x }
  else if k = "output" then
    (decList decOutputItem {} a.output v).map fun x => { a with output := x }
  else if k = "output_text" then (decStr a.outputText v).map fun x => { a with outputText := x }
  else if k = "usage" then (decUsageField a.usage v).map fun x => { a with usage := x }
  else if k = "error" then (decErrorField a.error v).map fun x => { a with error := x }
  else .ok a

/-- `json.Unmarshal(body, &result)` for the Responses envelope. -/
def decodeRespBody : Json → Except Unit RawResponsesBody
  | .null => .ok {}
  | .obj fs => decFields decBodyStep {} fs
  | _ => .error ()

/-- The deferred decode of a `computer_call` item's raw `action`
payload into `ComputerAction` (Go: `json.Unmarshal(item.Action, &action)`). -/
def decCompActionStep (a : ComputerAction) (k : String) (v : Json) :
    Except Unit ComputerAction :=
  if k = "type" then (decStr a.typ v).map fun x => { a with typ := x }
  else if k = "x" then (decInt a.x v).map fun x => { a with x := x }
  else if k = "y" then (decInt a.y v).map fun x => { a with y := x }
  else if k = "button" then (decStr a.button v).map fun x => { a with button := x }
  else if k = "scroll_x" then (decInt a.scrollX v).map fun x => { a with scrollX := x }
  else if k = "scroll_y" then (decInt a.scrollY v).map fun x => { a with scrollY := x }
  else if k = "keys" then (decStrList a.keys v).map fun x => { a with keys := x }
  else if k = "text" then (decStr a.text v).map fun x => { a with text := x }
  else .ok a

def decodeComputerAction : Json → Except Unit ComputerAction
  | .null => .ok {}
  | .obj fs => decFields decCompActionStep {} fs
  | _ => .error ()

/-- The deferred decode of a `shell_call` item's raw `action` payload
into `ShellAction`. -/
def decShellActionStep (a : ShellAction) (k : String) (v : Json) :
    Except Unit ShellAction :=
  if k = "commands" then (decStrList a.commands v).map fun x => { a with commands := x }
  else if k = "timeout_ms" then (decInt a.timeoutMs v).map fun x => { a with timeoutMs := x }
  else if k = "max_output_length" then
    (decInt a.maxOutputLength v).map fun x => { a with maxOutputLength := x }
  else .ok a

def decodeShellAction : Json → Except Unit ShellAction
  | .null => .ok {}
  | .obj fs => decFields decShellActionStep {} fs
  | _ => .error ()

/-- The accumulator of the `for _, item := range result.Output` walk:
the collected text, citations and tool calls. -/
structure WalkAcc where
  text : String := ""
  citations : List Citation := []
  toolCalls : List ResponsesToolCall := []
deriving DecidableEq

/-- One iteration of the output walk of `parseResponsesResponse`
(the `switch item.Type`, embedded as an if-chain over the
discriminator; an unmatched discriminator leaves the accumulator
unchanged — there is no default case). -/
def walkItem (acc : WalkAcc) (item : RawOutputItem) : WalkAcc :=
  if item.typ = "message" then
    item.content.foldl
      (fun acc2 c =>
        if c.typ = "output_text" ∨ c.typ = "text" then
          { acc2 with
            text := acc2.text ++ c.text,
            citations := acc2.citations ++ c.annots.map (fun ann =>
              { typ := ann.typ, url := ann.url, title := ann.title,
                fileID := ann.fileID, filename := ann.filename,
                startIndex := ann.startIndex, endIndex := ann.endIndex }) }
        else acc2)
      acc
  else if item.typ = "web_search_call" ∨ item.typ = "file_search_call" ∨
      item.typ = "mcp_call" ∨ item.typ = "code_interpreter_call" then
    { acc with toolCalls := acc.toolCalls ++
        [{ id := item.id, typ := item.typ, status := item.status, callID := item.callID,
           serverLabel := item.serverLabel, name := item.name,
           arguments := item.arguments, output := item.outputText,
           error := item.error }] }
  else if item.typ = "image_generation_call" then
    { acc with toolCalls := acc.toolCalls ++
        [{ id := item.id, typ := item.typ, status := item.status, callID := item.callID,
           revisedPrompt := item.revisedPrompt, imageResult := item.result }] }
  else if item.typ = "computer_call" then
    { acc with toolCalls := acc.toolCalls ++
        [{ id := item.id, typ := item.typ, status := item.status, callID := item.callID,
           action := (match item.action with
                      | some j => (decodeComputerAction j).toOption
                      | none => none),
           pendingSafetyChecks := item.pendingSafetyChecks.map (fun sc =>
             { id := sc.id, code := sc.code, message := sc.message }) }] }
  else if item.typ = "shell_call" then
    { acc with toolCalls := acc.toolCalls ++
        [{ id := item.id, typ := item.typ, status := item.status, callID := item.callID,
           shellAction := (match item.action with
                           | some j => (decodeShellAction j).toOption
                           | none => none) }] }
  else if item.typ = "apply_patch_call" then
    { acc with toolCalls := acc.toolCalls ++
        [{ id := item.id, typ := item.typ, status := item.status, callID := item.callID,
           patchOperation := item.operation.map (fun op =>
             { typ := op.typ, path := op.path, diff := op.diff }) }] }
  else acc

/-- The full output walk. -/
def walkOutput (items : List RawOutputItem) : WalkAcc :=
  items.foldl walkItem {}

/-- The discriminators recognized by the output walk. -/
def outputItemTags : List String :=
  ["message", "web_search_call", "file_search_call", "mcp_call",
   "code_interpreter_call", "image_generation_call", "computer_call",
   "shell_call", "apply_patch_call"]

/-- Embedding of `parseResponsesResponse` (provider_openai.go): a
failed unmarshal is a fatal parse error (the Go message interpolates
the error and raw body; here the fixed marker `"parse error"`); a
top-level error object short-circuits to a backend-tagged error;
otherwise the output items are walked and the convenience
`output_text` field backfills an empty text. -/
def parseResponsesResponse (body : Json) : Except ProviderError ProviderResponse :=
  match decodeRespBody body with
  | .error _ => .error { provider := "openai", message := "parse error" }
  | .ok result =>
    match result.error with
    | some e => .error { provider := "openai", code := e.code, message := e.message }
    | none =>
      let w := walkOutput result.output
      let textContent :=
        if w.text = "" ∧ result.outputText ≠ "" then result.outputText else w.text
      .ok { content := textContent,
            promptTokens := result.usage.inputTokens,
            completionTokens := result.usage.outputTokens,
            totalTokens := result.usage.totalTokens,
            responsesOutput := some { text := textContent, citations := w.citations,
                                      toolCalls := w.toolCalls } }

/-- A body with one well-formed message item and one tool-call item
whose `arguments` field is type-mismatched (a number where the envelope
expects a string); used by the C4 counterexample. -/
def c4DemoBody : Json :=
  Json.obj
    [("output", Json.arr
       [Json.obj [("type", Json.str "message"),
                  ("content", Json.arr
                    [Json.obj [("type", Json.str "output_text"),
                               ("text", Json.str "hello")]])],
        Json.obj [("type", Json.str "web_search_call"),
                  ("arguments", Json.num 3)]])]

/-- The same well-formed message item alone; used by the C4
counterexample for contrast. -/
def c4DemoSoloBody : Json :=
  Json.obj
    [("output", Json.arr
       [Json.obj [("type", Json.str "message"),
                  ("content", Json.arr
                    [Json.obj [("type", Json.str "output_text"),
                               ("text", Json.str "hello")]])]])]

/-- A body with the message item plus an item of unrecognized
discriminator; used by the C4 witness. -/
def c4DemoMixedBody : Json :=
  Json.obj
    [("output", Json.arr
       [Json.obj [("type", Json.str "message"),
                  ("content", Json.arr
                    [Json.obj [("type", Json.str "output_text"),
                               ("text", Json.str "hello")]])],
        Json.obj [("type", Json.str "totally_unknown_item"),
                  ("arguments", Json.str "x")]])]

/-- An already-unmarshalled output item with an unrecognized
discriminator; used by the C4 witness. -/
def c4UnknownItem : RawOutputItem := { typ := "totally_unknown_item", arguments := "x" }

/-- An already-unmarshalled message item; used by the C4 witness. -/
def c4MessageItem : RawOutputItem :=
  { typ := "message", content := [{ typ := "output_text", text := "hello" }] }

/-- A body carrying a decodable top-level backend error object next to
an ill-typed `output` field; used by the C8 counterexample. -/
def c8DemoBody : Json :=
  Json.obj
    [("error", Json.obj [("message", Json.str "boom"),
                         ("code", Json.str "rate_limited")]),
     ("output", Json.num 5)]

/-- A well-typed body carrying a top-level backend error object next to
output items, text and usage data; used by the C8 witness. -/
def c8GoodErrBody : Json :=
  Json.obj
    [("error", Json.obj [("message", Json.str "quota"),
                         ("code", Json.str "insufficient_quota")]),
     ("output", Json.arr [Json.obj [("type", Json.str "message"),
        ("content", Json.arr [Json.obj [("type", Json.str "output_text"),
                                        ("text", Json.str "partial")]])]]),
     ("output_text", Json.str "partial"),
     ("usage", Json.obj [("input_tokens", Json.num 7), ("output_tokens", Json.num 3),
                         ("total_tokens", Json.num 10)])]

/-- A body whose message walk yields no text but whose convenience
`output_text` field is set; used by the C9 witness. -/
def c9DemoBody : Json :=
  Json.obj [("output", Json.arr []), ("output_text", Json.str "fallback text")]

/-- A body whose message walk yields text and whose convenience
`output_text` field disagrees; used by the C9 witness. -/
def c9DemoBody2 : Json :=
  Json.obj
    [("output", Json.arr
       [Json.obj [("type", Json.str "message"),
                  ("content", Json.arr
                    [Json.obj [("type", Json.str "output_text"),
                               ("text", Json.str "hello")]])]]),
     ("output_text", Json.str "ignored")]

/-- A well-formed single-message body; used by the C10 witness. -/
def c10DemoBody : Json :=
  Json.obj
    [("output", Json.arr
       [Json.obj [("type", Json.str "message"),
                  ("content", Json.arr
                    [Json.obj [("type", Json.str "output_text"),
                               ("text", Json.str "hi")]])]])]

/-- A shell-call item whose raw `action` payload fails the
`ShellAction` decode; used by the C4 witness. -/
def c4BadShellItem : RawOutputItem :=
  { typ := "shell_call", id := "s1", action := some (Json.str "garbage") }

/-- A computer-call item whose raw `action` payload fails the
`ComputerAction` decode; used by the C4 witness. -/
def c4BadComputerItem : RawOutputItem :=
  { typ := "computer_call", id := "c1", action := some (Json.str "garbage"),
    pendingSafetyChecks := [{ id := "sc1", code := "sensitive_domain", message := "m" }] }

/-! ### Theorems: the dotted-version transliteration (claim C7) -/

theorem stringMkData (s : String) : (⟨s.data⟩ : String) = s := rfl

theorem dashDots_cons_ne (P : Char → Bool) (x : Char) (hx : x ≠ '.') (rest : List Char) :
    dashDots P (x :: rest) = x :: dashDots P rest := by
  cases rest with
  | nil => rfl
  | cons y ys => simp [dashDots, hx]

theorem replaceAll2_eq_dashDots (d : Char) (hd : d ≠ '.') (s : List Char) :
    replaceAll2 '.' d '-' d s = dashDots (fun c => c = d) s := by
  induction s using replaceAll2.induct '.' d '-' d with
  | case1 => rfl
  | case2 c => rfl
  | case3 a b rest h ih =>
    obtain ⟨rfl, rfl⟩ := h
    rw [replaceAll2, if_pos ⟨rfl, rfl⟩, ih, dashDots, if_pos ⟨rfl, by simp⟩,
      dashDots_cons_ne _ _ hd]
  | case4 a b rest h ih =>
    rw [replaceAll2, if_neg h, ih, dashDots]
    congr 1
    rw [if_neg]
    intro hc
    exact h ⟨hc.1, by simpa using hc.2⟩

theorem dashDots_dashDots (P Q : Char → Bool) (hP1 : P '.' = false) (hP2 : P '-' = false)
    (s : List Char) :
    dashDots P (dashDots Q s) = dashDots (fun c => P c || Q c) s := by
  induction s using dashDots.induct Q with
  | case1 => rfl
  | case2 c => rfl
  | case3 a b rest ih =>
    cases rest with
    | nil =>
      by_cases ha : a = '.' <;> by_cases hqb : Q b = true <;>
        simp [dashDots, ha, hqb, hP1, hP2]
    | cons x xs =>
      have hPqb : P (if b = '.' ∧ Q x = true then '-' else b) = P b := by
        by_cases hb : b = '.' ∧ Q x = true
        · rw [if_pos hb, hP2, hb.1, hP1]
        · rw [if_neg hb]
      simp only [dashDots] at ih ⊢
      rw [ih]
      congr 1
      by_cases hq : a = '.' ∧ Q b = true
      · rw [if_pos hq, if_neg (fun hc => absurd hc.1 (by decide)),
          if_pos ⟨hq.1, by rw [hq.2, Bool.or_true]⟩]
      · rw [if_neg hq, hPqb]
        by_cases ha : a = '.'
        · have hnq : Q b = false := by
            cases hQb : Q b with
            | false => rfl
            | true => exact absurd ⟨ha, hQb⟩ hq
          simp [ha, hnq]
        · rw [if_neg (fun hc => ha hc.1), if_neg (fun hc => ha hc.1)]

theorem dashDots_congr (P Q : Char → Bool) (h : ∀ c, P c = Q c) (s : List Char) :
    dashDots P s = dashDots Q s := by
  induction s using dashDots.induct P with
  | case1 => rfl
  | case2 c => rfl
  | case3 a b rest ih =>
    simp only [dashDots, h b, ih]

theorem replaceAll2_over_dashDots (d : Char) (hd : d ≠ '.') (hd2 : d ≠ '-')
    (Q : Char → Bool) (s : List Char) :
    replaceAll2 '.' d '-' d (dashDots Q s) =
      dashDots (fun c => decide (c = d) || Q c) s := by
  rw [replaceAll2_eq_dashDots d hd]
  exact dashDots_dashDots _ _ (by simp [Ne.symm hd]) (by simp [Ne.symm hd2]) s

theorem dotDashChain_eq_dashDots (s : List Char) :
    dotDashChain s = dashDots isVersionDigit s := by
  unfold dotDashChain
  rw [replaceAll2_eq_dashDots '1' (by decide),
    replaceAll2_over_dashDots '5' (by decide) (by decide),
    replaceAll2_over_dashDots '7' (by decide) (by decide),
    replaceAll2_over_dashDots '0' (by decide) (by decide),
    replaceAll2_over_dashDots '2' (by decide) (by decide),
    replaceAll2_over_dashDots '3' (by decide) (by decide),
    replaceAll2_over_dashDots '4' (by decide) (by decide),
    replaceAll2_over_dashDots '6' (by decide) (by decide),
    replaceAll2_over_dashDots '8' (by decide) (by decide),
    replaceAll2_over_dashDots '9' (by decide) (by decide)]
  apply dashDots_congr
  intro c
  rw [Bool.eq_iff_iff]
  simp only [isVersionDigit, Bool.or_eq_true, decide_eq_true_eq]
  tauto

theorem dashDots_eq_self (P : Char → Bool) (s : List Char)
    (h : hasDotWith P s = false) : dashDots P s = s := by
  induction s using dashDots.induct P with
  | case1 => rfl
  | case2 c => rfl
  | case3 a b rest ih =>
    rw [hasDotWith, Bool.or_eq_false_iff] at h
    rw [dashDots, if_neg (by simpa using h.1), ih h.2]

/-- C7: for every dotted-version Claude shorthand with an explicit entry
in the shorthand→snapshot table (also in its `"anthropic/"`-prefixed
OpenRouter form), `normalizeAnthropicModelID` returns the mapped dated
snapshot; for every identifier whose preprocessed form is not explicitly
mapped, every dotted version separator (a `'.'` immediately followed by
a decimal digit) is transliterated to a dash and nothing else changes;
and identifiers with no namespace prefix, no `':'` suffix, no table
entry and no dotted separator pass through unchanged (the resolver is a
total function). -/
theorem c7_anthropic_normalization :
    (∀ p ∈ anthropicSnapshots,
        normalizeAnthropicModelID p.1 = p.2 ∧
        normalizeAnthropicModelID ("anthropic/" ++ p.1) = p.2) ∧
    (∀ raw, anthropicSnapshots.lookup (anthropicPreprocess raw) = none →
        normalizeAnthropicModelID raw =
          ⟨dashDots isVersionDigit (anthropicPreprocess raw).data⟩) ∧
    (∀ raw, goHasPref "anthropic/" raw = false →
        raw.data.all (fun c => c ≠ ':') = true →
        anthropicSnapshots.lookup raw = none →
        hasDotWith isVersionDigit raw.data = false →
        normalizeAnthropicModelID raw = raw) := by
  refine ⟨?_, ?_, ?_⟩
  · intro p hp
    simp only [anthropicSnapshots, List.mem_cons, List.not_mem_nil, or_false] at hp
    rcases hp with rfl|rfl|rfl|rfl|rfl|rfl|rfl|rfl|rfl|rfl|rfl <;>
      exact ⟨by decide, by decide⟩
  · intro raw h
    simp only [normalizeAnthropicModelID, h]
    exact congrArg _ (dotDashChain_eq_dashDots _)
  · intro raw h1 h2 h3 h4
    have ht : List.takeWhile (fun c => decide (c ≠ ':')) raw.data = raw.data := by
      rw [List.takeWhile_eq_self_iff]
      intro x hx
      simpa using List.all_eq_true.mp h2 x hx
    have hpre : anthropicPreprocess raw = raw := by
      simp only [anthropicPreprocess, goTrimPref, h1, Bool.false_eq_true, if_false, ht]
    rw [normalizeAnthropicModelID, hpre, h3]
    rw [dotDashChain_eq_dashDots, dashDots_eq_self _ _ h4]

/-- Witness for C7: the theorem applied at the concrete inputs
`"claude-sonnet-4.5"` (explicit table entry), `"anthropic/claude-opus-4.1"`
(prefixed table entry), `"claude-9.8-test"` (unmapped dotted identifier)
and `"claude-next"` (pass-through). -/
theorem c7_anthropic_normalization_witness :
    normalizeAnthropicModelID "claude-sonnet-4.5" = "claude-sonnet-4-5-20250929" ∧
    normalizeAnthropicModelID ("anthropic/" ++ "claude-opus-4.1") = "claude-opus-4-1-20250805" ∧
    normalizeAnthropicModelID "claude-9.8-test" =
      ⟨dashDots isVersionDigit (anthropicPreprocess "claude-9.8-test").data⟩ ∧
    normalizeAnthropicModelID "claude-next" = "claude-next" :=
  ⟨(c7_anthropic_normalization.1 ("claude-sonnet-4.5", "claude-sonnet-4-5-20250929")
      (by decide)).1,
   (c7_anthropic_normalization.1 ("claude-opus-4.1", "claude-opus-4-1-20250805")
      (by decide)).2,
   c7_anthropic_normalization.2.1 "claude-9.8-test" (by decide),
   c7_anthropic_normalization.2.2 "claude-next" (by decide) (by decide) (by decide)
      (by decide)⟩

/-! ### Theorems: the model-mapping table always wins (claim C1) -/

theorem lookupMapped_of_mem (v : ModelName → String) (tbl : List (ModelName × String))
    (hd : keysDistinct v tbl) (name : ModelName) (val : String)
    (hmem : (name, val) ∈ tbl) : lookupMapped v tbl (v name) = some val := by
  induction tbl with
  | nil => cases hmem
  | cons e rest ih =>
    obtain ⟨k, kval⟩ := e
    rw [keysDistinct, List.map_cons, List.nodup_cons] at hd
    rw [lookupMapped]
    rcases List.mem_cons.mp hmem with heq | htail
    · obtain ⟨rfl, rfl⟩ := Prod.mk.inj heq.symm
      simp
    · have hne : v k ≠ v name := by
        intro hv
        exact hd.1 (hv ▸ List.mem_map_of_mem (fun e => v e.1) htail)
      rw [if_neg hne]
      exact ih hd.2 htail

/-- C1: for every provider with an entry in `modelMappings` and every
`Model` constant with a key in that provider's table, `resolveModel`
returns exactly the table value, before and regardless of every
normalization heuristic (the heuristics are only in the `none` branch
of the lookup).  The statement is for every valuation of the `Model`
constants whose table keys are pairwise distinct, which is what the Go
compiler guarantees for the map literals. -/
theorem c1_resolveModel_table_wins (v : ModelName → String) (pt : ProviderType)
    (tbl : List (ModelName × String)) (htbl : modelMappings pt = some tbl)
    (hdist : keysDistinct v tbl) (name : ModelName) (val : String)
    (hmem : (name, val) ∈ tbl) :
    resolveModel v pt (v name) = val := by
  simp only [resolveModel, htbl, lookupMapped_of_mem v tbl hdist name val hmem]

/-- Witness for C1: the Anthropic table at the `ModelClaudeOpus3`
constant, under the sample valuation. -/
theorem c1_resolveModel_table_wins_witness :
    modelMappings ProviderType.anthropic = some anthropicMappings ∧
    keysDistinct sampleConsts anthropicMappings ∧
    (ModelName.claudeOpus3, "claude-3-opus-20240229") ∈ anthropicMappings ∧
    resolveModel sampleConsts ProviderType.anthropic (sampleConsts ModelName.claudeOpus3) =
      "claude-3-opus-20240229" :=
  ⟨rfl, by unfold keysDistinct; decide, by decide,
   c1_resolveModel_table_wins sampleConsts ProviderType.anthropic anthropicMappings rfl
     (by unfold keysDistinct; decide) ModelName.claudeOpus3 "claude-3-opus-20240229"
     (by decide)⟩

/-! ### Theorems: the outbound wire translation (claims C2 and C5) -/

theorem map_fst_ite_single (c : Prop) [inst : Decidable c] (k : String) (v : WireVal) :
    (List.map Prod.fst (if c then [(k, v)] else [])) = if c then [k] else [] := by
  split <;> rfl

theorem map_fst_ite_nil (c : Prop) [inst : Decidable c] (k : String) (v : WireVal) :
    (List.map Prod.fst (if c then [] else [(k, v)])) = if c then [] else [k] := by
  split <;> rfl

theorem filter_cons_ite (P : String → Bool) (k : String) (ks : List String) :
    List.filter P (k :: ks) = (if P k = true then [k] else []) ++ List.filter P ks := by
  by_cases h : P k = true <;> simp [h]

theorem buildBuiltinTool_head (bt : BuiltinTool) :
    (buildBuiltinTool bt).head? = some ("type", WireVal.s bt.typ) := rfl

theorem tagFieldKeys_nodup (t : String) : (tagFieldKeys t).Nodup := by
  unfold tagFieldKeys
  split <;> decide

theorem type_not_mem_tagFieldKeys (t : String) : "type" ∉ tagFieldKeys t := by
  unfold tagFieldKeys
  split <;> decide

set_option maxHeartbeats 1000000 in
theorem buildBuiltinTool_keys (bt : BuiltinTool) (h : bt.typ ∈ builtinToolTags) :
    (buildBuiltinTool bt).map Prod.fst
      = "type" :: (tagFieldKeys bt.typ).filter (fun k => wireGuard bt k) := by
  simp only [builtinToolTags, List.mem_cons, List.not_mem_nil, or_false] at h
  rcases h with h|h|h|h|h|h|h|h
  · rcases hu : bt.userLocation with _|u <;> rcases hf : bt.searchFilter with _|f <;>
      simp [buildBuiltinTool, tagFieldKeys, wireGuard, h, hu, hf, map_fst_ite_single,
        map_fst_ite_nil, filter_cons_ite]
  · rcases hf : bt.fileFilter with _|f <;>
      simp [buildBuiltinTool, tagFieldKeys, wireGuard, h, hf, map_fst_ite_single,
        map_fst_ite_nil, filter_cons_ite]
  · rcases hc : bt.container with _|c <;>
      simp [buildBuiltinTool, tagFieldKeys, wireGuard, h, hc, map_fst_ite_single,
        map_fst_ite_nil, filter_cons_ite]
  · rcases hr : bt.requireApproval with _|r <;>
      simp [buildBuiltinTool, tagFieldKeys, wireGuard, h, hr, map_fst_ite_single,
        map_fst_ite_nil, filter_cons_ite]
  · simp [buildBuiltinTool, tagFieldKeys, wireGuard, h, map_fst_ite_single,
      map_fst_ite_nil, filter_cons_ite]
  · simp [buildBuiltinTool, tagFieldKeys, wireGuard, h, map_fst_ite_single,
      map_fst_ite_nil, filter_cons_ite]
  · simp [buildBuiltinTool, tagFieldKeys, wireGuard, h, map_fst_ite_single,
      map_fst_ite_nil, filter_cons_ite]
  · simp [buildBuiltinTool, tagFieldKeys, wireGuard, h, map_fst_ite_single,
      map_fst_ite_nil, filter_cons_ite]

/-- C2 counterexample: `buildBuiltinTool` is a total function with no
failure channel (the Go `switch` has no `default` case and the function
returns the map, never an error or panic); at the unrecognized tag
`"definitely_not_a_tool"` it silently returns the wire object carrying
nothing but the discriminator — exactly what the claim says must not
happen. -/
theorem c2_unknown_tag_counterexample :
    "definitely_not_a_tool" ∉ builtinToolTags ∧
    buildBuiltinTool { typ := "definitely_not_a_tool" } =
      [("type", WireVal.s "definitely_not_a_tool")] := ⟨by decide, rfl⟩

/-- C2 (amended): for every `BuiltinTool` whose tag is not one of the
eight recognized tags, `buildBuiltinTool` does not fail at all: it
silently returns the wire object containing only the discriminator,
regardless of which other fields are populated. -/
theorem c2_unknown_tag_discriminator_only (bt : BuiltinTool)
    (h : bt.typ ∉ builtinToolTags) :
    buildBuiltinTool bt = [("type", WireVal.s bt.typ)] := by
  simp only [builtinToolTags, List.mem_cons, List.not_mem_nil, or_false, not_or] at h
  rw [buildBuiltinTool, List.append_right_eq_self]
  split <;> simp_all

/-- Witness for the amended C2 at a concrete unknown tag with another
tag's field populated. -/
theorem c2_unknown_tag_discriminator_only_witness :
    ("not_a_real_tool" : String) ∉ builtinToolTags ∧
    buildBuiltinTool { typ := "not_a_real_tool", serverLabel := "x" } =
      [("type", WireVal.s "not_a_real_tool")] :=
  ⟨by decide,
   c2_unknown_tag_discriminator_only { typ := "not_a_real_tool", serverLabel := "x" }
     (by decide)⟩

/-- C5: for every `BuiltinTool` with a recognized tag, the wire object
starts with the discriminator, and its key set is exactly the
discriminator plus those keys defined for the tag whose non-zero guard
holds — so fields of other tags never appear and every empty/zero
optional field is omitted entirely; the keys are pairwise distinct; and
for `shell` and `apply_patch` the wire object is exactly the
discriminator singleton. -/
theorem c5_builtin_tool_wire_fields (bt : BuiltinTool) (h : bt.typ ∈ builtinToolTags) :
    (buildBuiltinTool bt).head? = some ("type", WireVal.s bt.typ) ∧
    (buildBuiltinTool bt).map Prod.fst
      = "type" :: (tagFieldKeys bt.typ).filter (fun k => wireGuard bt k) ∧
    ((buildBuiltinTool bt).map Prod.fst).Nodup ∧
    ((bt.typ = "shell" ∨ bt.typ = "apply_patch") →
      buildBuiltinTool bt = [("type", WireVal.s bt.typ)]) := by
  refine ⟨buildBuiltinTool_head bt, buildBuiltinTool_keys bt h, ?_, ?_⟩
  · rw [buildBuiltinTool_keys bt h, List.nodup_cons]
    exact ⟨fun hm => absurd (List.mem_of_mem_filter hm) (type_not_mem_tagFieldKeys bt.typ),
      (tagFieldKeys_nodup bt.typ).filter _⟩
  · rintro (h'|h') <;> (rw [buildBuiltinTool, h']; simp)

/-- Witness for C5 at a concrete MCP tool configuration. -/
theorem c5_builtin_tool_wire_fields_witness :
    sampleMCPTool.typ ∈ builtinToolTags ∧
    ((buildBuiltinTool sampleMCPTool).head? = some ("type", WireVal.s sampleMCPTool.typ) ∧
     (buildBuiltinTool sampleMCPTool).map Prod.fst
       = "type" :: (tagFieldKeys sampleMCPTool.typ).filter (fun k => wireGuard sampleMCPTool k) ∧
     ((buildBuiltinTool sampleMCPTool).map Prod.fst).Nodup ∧
     ((sampleMCPTool.typ = "shell" ∨ sampleMCPTool.typ = "apply_patch") →
       buildBuiltinTool sampleMCPTool = [("type", WireVal.s sampleMCPTool.typ)])) :=
  ⟨by decide, c5_builtin_tool_wire_fields sampleMCPTool (by decide)⟩

/-! ### Theorems: retry/fallback orchestration (claims C3 and C6) -/

/-- C3: with a fallback chain of three models, the legacy fixed retry
policy granting two attempts per model (`maxRetries = 1`), and a
provider whose every call fails, `SendWithMeta` performs exactly six
provider attempts — two per model, in chain order — and the returned
metadata carries the original primary model (element 0 of the chain)
and the last recorded error. -/
theorem c3_fallback_six_attempts (oracle : SendOracle) (m0 m1 m2 : Model)
    (vals : Option (String → Except ProviderError String))
    (hfail : ∀ n, ∃ e, oracle n = .error e) :
    (sendWithMeta oracle ⟨m0, [m1, m2], 1, none, vals⟩).2.calls
        = [m0, m0, m1, m1, m2, m2] ∧
    (sendWithMeta oracle ⟨m0, [m1, m2], 1, none, vals⟩).1.model = m0 ∧
    ∃ e, oracle 5 = .error e ∧
      (sendWithMeta oracle ⟨m0, [m1, m2], 1, none, vals⟩).1.error = some e := by
  obtain ⟨e0, h0⟩ := hfail 0
  obtain ⟨e1, h1⟩ := hfail 1
  obtain ⟨e2, h2⟩ := hfail 2
  obtain ⟨e3, h3⟩ := hfail 3
  obtain ⟨e4, h4⟩ := hfail 4
  obtain ⟨e5, h5⟩ := hfail 5
  refine ⟨?_, ?_, e5, h5, ?_⟩ <;>
    simp [sendWithMeta, sendChain, attemptModel, legacyRetryLoop, doSend,
      h0, h1, h2, h3, h4, h5]

/-- Witness for C3 with an always-failing provider and the chain
`["gpt-5.2", "gpt-4o", "o3"]`. -/
theorem c3_fallback_six_attempts_witness :
    (∀ n, ∃ e, alwaysFailOracle n = Except.error e) ∧
    (sendWithMeta alwaysFailOracle ⟨"gpt-5.2", ["gpt-4o", "o3"], 1, none, none⟩).2.calls
      = ["gpt-5.2", "gpt-5.2", "gpt-4o", "gpt-4o", "o3", "o3"] ∧
    (sendWithMeta alwaysFailOracle ⟨"gpt-5.2", ["gpt-4o", "o3"], 1, none, none⟩).1.model
      = "gpt-5.2" :=
  ⟨fun _ => ⟨{ message := "boom" }, rfl⟩,
   (c3_fallback_six_attempts alwaysFailOracle "gpt-5.2" "gpt-4o" "o3" none
      (fun _ => ⟨{ message := "boom" }, rfl⟩)).1,
   (c3_fallback_six_attempts alwaysFailOracle "gpt-5.2" "gpt-4o" "o3" none
      (fun _ => ⟨{ message := "boom" }, rfl⟩)).2.1⟩

/-- C6: whenever a model's provider attempt succeeds but the configured
validators reject the returned content, `SendWithMeta` returns
immediately with the validation error as a terminal failure: the
execution's final state is exactly the state after this model's
attempts, so no provider attempt is made for any later model of the
fallback chain (`rest` is arbitrary and unused). -/
theorem c6_validation_terminal (oracle : SendOracle) (cfg : SendConfig) (m : Model)
    (rest : List Model) (s : OrchState) (lastErr : Option ProviderError)
    (resp : ProviderResponse) (s' : OrchState)
    (runVals : String → Except ProviderError String) (ve : ProviderError)
    (hv : cfg.validators = some runVals)
    (ha : attemptModel oracle cfg m s = (.ok resp, s'))
    (hr : runVals resp.content = .error ve) :
    sendChain oracle cfg (m :: rest) s lastErr =
      ({ error := some ve, model := m, retries := s'.totalRetries }, s') := by
  simp [sendChain, ha, hv, hr]

/-- Witness for C6: a provider that succeeds immediately, a validator
that rejects, and two fallback models that are never attempted (the
call trace stays `["gpt-5.2"]`). -/
theorem c6_validation_terminal_witness :
    c6DemoCfg.validators = some rejectAll ∧
    attemptModel okOracle c6DemoCfg "gpt-5.2" {} =
      (Except.ok { content := "bad word" }, { calls := ["gpt-5.2"] }) ∧
    rejectAll "bad word" = Except.error { message := "validation failed" } ∧
    sendChain okOracle c6DemoCfg ("gpt-5.2" :: ["gpt-4o", "o3"]) {} none =
      ({ error := some { message := "validation failed" }, model := "gpt-5.2" },
       { calls := ["gpt-5.2"] }) :=
  ⟨rfl, rfl, rfl,
   c6_validation_terminal okOracle c6DemoCfg "gpt-5.2" ["gpt-4o", "o3"] {} none
     { content := "bad word" } { calls := ["gpt-5.2"] } rejectAll
     { message := "validation failed" } rfl rfl rfl⟩

/-! ### Theorems: the inbound Responses decoder (claims C4, C8, C9, C10) -/

theorem walkItem_unknown (acc : WalkAcc) (item : RawOutputItem)
    (h : item.typ ∉ outputItemTags) : walkItem acc item = acc := by
  simp only [outputItemTags, List.mem_cons, List.not_mem_nil, or_false, not_or] at h
  obtain ⟨h1, h2, h3, h4, h5, h6, h7, h8, h9⟩ := h
  simp [walkItem, h1, h2, h3, h4, h5, h6, h7, h8, h9]

/-- C4 counterexample: the claim is false for a tool-call item that is
malformed in the sense of a type-mismatched field.  `c4DemoBody` holds
one well-formed message item (whose text is `"hello"`, as the second
conjunct shows for the same item alone) and one `web_search_call` item
whose `arguments` is a number: `json.Unmarshal` of the whole envelope
returns a non-nil error, `parseResponsesResponse` treats that as fatal,
and the message text is lost — the malformed item is not silently
dropped. -/
theorem c4_malformed_item_counterexample :
    parseResponsesResponse c4DemoBody =
      .error { provider := "openai", message := "parse error" } ∧
    parseResponsesResponse c4DemoSoloBody =
      .ok { content := "hello", responsesOutput := some { text := "hello" } } :=
  ⟨rfl, rfl⟩

/-- C4 (amended): an individual output item never aborts decoding when
it is *unexpected* rather than ill-typed: (1) an item whose
discriminator is not recognized is dropped by the walk and the
remaining items decode exactly as if it were absent; (2) once the
envelope unmarshals and carries no top-level error object, the decoder
always succeeds, whatever the items are; (3) a `shell_call` item whose
deferred `action` payload fails its shape-specific decode is kept, with
the action field simply left empty; (4) likewise a `computer_call` item
whose `action` payload fails the `ComputerAction` decode is kept, with
an empty action and its safety checks intact.  An item with a
type-mismatched field, however, fails the whole-envelope
`json.Unmarshal` and aborts the decode (see the counterexample). -/
theorem c4_unknown_item_skipped :
    (∀ (pre post : List RawOutputItem) (bad : RawOutputItem),
        bad.typ ∉ outputItemTags →
        walkOutput (pre ++ bad :: post) = walkOutput (pre ++ post)) ∧
    (∀ j body, decodeRespBody j = .ok body → body.error = none →
        ∀ pe, parseResponsesResponse j ≠ .error pe) ∧
    (∀ acc item, item.typ = "shell_call" →
        (∀ jj, item.action = some jj → decodeShellAction jj = .error ()) →
        walkItem acc item = { acc with toolCalls := acc.toolCalls ++
          [{ id := item.id, typ := item.typ, status := item.status,
             callID := item.callID, shellAction := none }] }) ∧
    (∀ acc item, item.typ = "computer_call" →
        (∀ jj, item.action = some jj → decodeComputerAction jj = .error ()) →
        walkItem acc item = { acc with toolCalls := acc.toolCalls ++
          [{ id := item.id, typ := item.typ, status := item.status,
             callID := item.callID, action := none,
             pendingSafetyChecks := item.pendingSafetyChecks.map (fun sc =>
               { id := sc.id, code := sc.code, message := sc.message }) }] }) := by
  refine ⟨?_, ?_, ?_, ?_⟩
  · intro pre post bad hbad
    have hw : ∀ acc, walkItem acc bad = acc := fun acc => walkItem_unknown acc bad hbad
    simp [walkOutput, List.foldl_append, hw]
  · intro j body hdec herr pe
    simp [parseResponsesResponse, hdec, herr]
  · intro acc item htyp hfail
    have hsh : (match item.action with
        | some jj => (decodeShellAction jj).toOption
        | none => none) = none := by
      cases hact : item.action with
      | none => rfl
      | some jj => simp [hfail jj hact, Except.toOption]
    simp [walkItem, htyp, hsh]
  · intro acc item htyp hfail
    have hca : (match item.action with
        | some jj => (decodeComputerAction jj).toOption
        | none => none) = none := by
      cases hact : item.action with
      | none => rfl
      | some jj => simp [hfail jj hact, Except.toOption]
    simp [walkItem, htyp, hca]

/-- Witness for the amended C4: the unrecognized item between a message
item and nothing is dropped; the mixed body with the unknown item still
parses without error; and shell/computer items with undecodable action
payloads are kept with their action left empty. -/
theorem c4_unknown_item_skipped_witness :
    c4UnknownItem.typ ∉ outputItemTags ∧
    walkOutput ([c4MessageItem] ++ c4UnknownItem :: []) =
      walkOutput ([c4MessageItem] ++ []) ∧
    parseResponsesResponse c4DemoMixedBody ≠
      .error { provider := "openai", message := "parse error" } ∧
    walkItem {} c4BadShellItem =
      { toolCalls := [{ id := "s1", typ := "shell_call", shellAction := none }] } ∧
    walkItem {} c4BadComputerItem =
      { toolCalls :=
          [{ id := "c1", typ := "computer_call", action := none,
             pendingSafetyChecks :=
               [{ id := "sc1", code := "sensitive_domain", message := "m" }] }] } :=
  ⟨by decide,
   c4_unknown_item_skipped.1 [c4MessageItem] [] c4UnknownItem (by decide),
   c4_unknown_item_skipped.2.1 c4DemoMixedBody _ rfl rfl
     { provider := "openai", message := "parse error" },
   c4_unknown_item_skipped.2.2.1 {} c4BadShellItem rfl
     (fun jj h => by rw [← Option.some.inj h]; rfl),
   c4_unknown_item_skipped.2.2.2 {} c4BadComputerItem rfl
     (fun jj h => by rw [← Option.some.inj h]; rfl)⟩

/-- C8 counterexample: `c8DemoBody` contains a decodable top-level
backend error object with code `"rate_limited"` (first conjunct), yet
because its `output` field is ill-typed the whole-envelope
`json.Unmarshal` fails first and `parseResponsesResponse` returns the
parse error, whose backend code tag is empty — not the backend-supplied
code.  So the error object does not short-circuit "regardless of
whatever the rest of the body contains". -/
theorem c8_error_object_counterexample :
    decErrorField none (Json.obj [("message", Json.str "boom"),
                                  ("code", Json.str "rate_limited")])
      = .ok (some { message := "boom", code := "rate_limited" }) ∧
    parseResponsesResponse c8DemoBody =
      .error { provider := "openai", code := "", message := "parse error" } :=
  ⟨rfl, rfl⟩

/-- C8 (amended): for every body whose envelope unmarshals
successfully, a top-level backend error object short-circuits decoding
to exactly one terminal error, tagged with the provider identity and
the backend-supplied code and message — whatever output items, text or
usage data the rest of the body contains, and with no response (hence
no partial text, citations or tool calls) returned alongside it. -/
theorem c8_error_short_circuit (j : Json) (body : RawResponsesBody) (e : RawErrorObj)
    (hdec : decodeRespBody j = .ok body) (herr : body.error = some e) :
    parseResponsesResponse j =
      .error { provider := "openai", code := e.code, message := e.message } := by
  simp only [parseResponsesResponse, hdec, herr]

/-- Witness for the amended C8: a well-typed body with an error object
plus output items, convenience text and usage data yields exactly the
backend-tagged terminal error. -/
theorem c8_error_short_circuit_witness :
    parseResponsesResponse c8GoodErrBody =
      .error { provider := "openai", code := "insufficient_quota", message := "quota" } :=
  c8_error_short_circuit c8GoodErrBody _ _ rfl rfl

/-- C9: on every successfully unmarshalled body with no top-level
error, when the message-item walk produced non-empty text the response
content is exactly that text (the convenience `output_text` field never
overwrites it), and when the walk produced empty text the content is
the convenience `output_text` field (the fallback, itself possibly
empty). -/
theorem c9_output_text_fallback (j : Json) (body : RawResponsesBody)
    (hdec : decodeRespBody j = .ok body) (herr : body.error = none) :
    ((walkOutput body.output).text ≠ "" →
      ∃ r, parseResponsesResponse j = .ok r ∧
        r.content = (walkOutput body.output).text) ∧
    ((walkOutput body.output).text = "" →
      ∃ r, parseResponsesResponse j = .ok r ∧ r.content = body.outputText) := by
  simp only [parseResponsesResponse, hdec, herr]
  constructor
  · intro hne
    refine ⟨_, rfl, ?_⟩
    simp [hne]
  · intro heq
    refine ⟨_, rfl, ?_⟩
    by_cases ho : body.outputText = "" <;> simp [heq, ho]

/-- Witness for C9: with an empty walk the convenience field is used;
with a non-empty walk the walk text wins over a disagreeing
convenience field. -/
theorem c9_output_text_fallback_witness :
    (∃ r, parseResponsesResponse c9DemoBody = Except.ok r ∧
       r.content = "fallback text") ∧
    (∃ r, parseResponsesResponse c9DemoBody2 = Except.ok r ∧ r.content = "hello") :=
  ⟨(c9_output_text_fallback c9DemoBody _ rfl rfl).2 rfl,
   (c9_output_text_fallback c9DemoBody2 _ rfl rfl).1 (by decide)⟩

/-- C10: every body that `parseResponsesResponse` accepts yields a
response with a non-`nil` `ResponsesOutput` whose `Text` equals the
caller-facing `Content` — both are written from the same local
`textContent`. -/
theorem c10_content_matches_text (j : Json) (r : ProviderResponse)
    (h : parseResponsesResponse j = .ok r) :
    ∃ ro, r.responsesOutput = some ro ∧ r.content = ro.text := by
  cases hdec : decodeRespBody j with
  | error e =>
    simp only [parseResponsesResponse, hdec] at h
    exact Except.noConfusion h
  | ok body =>
    cases herr : body.error with
    | some e =>
      simp only [parseResponsesResponse, hdec, herr] at h
      exact Except.noConfusion h
    | none =>
      simp only [parseResponsesResponse, hdec, herr, Except.ok.injEq] at h
      subst h
      exact ⟨_, rfl, rfl⟩

/-- Witness for C10 at a concrete single-message body. -/
theorem c10_content_matches_text_witness :
    parseResponsesResponse c10DemoBody =
      Except.ok { content := "hi", responsesOutput := some { text := "hi" } } ∧
    ∃ ro, ({ content := "hi", responsesOutput := some { text := "hi" } } :
        ProviderResponse).responsesOutput = some ro ∧
      ({ content := "hi", responsesOutput := some { text := "hi" } } :
        ProviderResponse).content = ro.text :=
  ⟨rfl, c10_content_matches_text c10DemoBody _ rfl⟩

end GoLLM
